import Mathlib

/-!
Shallow embedding of the OpenClaw TouchPortal plugin sources: `plugin.js`
(the local CLI variant) and the two documents packed in `plugin-remote.js`
(the HTTP invoke variant and the WebSocket JSON-RPC variant).

JavaScript objects are modelled as insertion-ordered association lists of
string keys and string values; property read is first-match lookup and
property write updates in place or appends, matching JS object semantics.
Promises are modelled by `Except`-valued oracles passed to the handlers;
timers appear as explicit schedule effects carrying their delay.
-/

/-- First-match lookup; models JavaScript property access `obj[key]`. -/
def jsLookup : List (String × String) → String → Option String
  | [], _ => none
  | (k, v) :: rest, key => if key = k then some v else jsLookup rest key

/-- Property write; models `obj[key] = v`: an existing key keeps its
position and gets the new value, a new key is appended. -/
def objSet : List (String × String) → String → String → List (String × String)
  | [], k, v => [(k, v)]
  | (k0, v0) :: rest, k, v =>
    if k0 = k then (k0, v) :: rest else (k0, v0) :: objSet rest k v

/-- Models `Object.assign(acc, item)`: every own property of `item` is
assigned onto `acc` in order. -/
def objAssign (acc : List (String × String)) : List (String × String) → List (String × String)
  | [] => acc
  | (k, v) :: rest => objAssign (objSet acc k v) rest

/-- Whitespace as the string trim of this protocol's ASCII data removes
it. -/
def jsSpace (c : Char) : Bool :=
  c == ' ' || c == '\t' || c == '\n' || c == '\r'

/-- Models `s.trim()`: strip leading and trailing whitespace. -/
def jsTrim (s : String) : String :=
  ⟨((s.data.dropWhile jsSpace).reverse.dropWhile jsSpace).reverse⟩

/-- Suffix test on strings by their character lists. -/
def strEndsWith (s suf : String) : Bool :=
  suf.data.isSuffixOf s.data

/-- Drop the last `n` characters of a string. -/
def strDropRight (s : String) (n : Nat) : String :=
  ⟨s.data.take (s.data.length - n)⟩

namespace LocalPlugin

/-- Result of `runOpenClawCommand` in plugin.js: that promise only ever
resolves; a spawn error resolves with `code = -1` and the message in
stderr. -/
structure CmdResult where
  code : Int
  stdout : String
  stderr : String
deriving DecidableEq

/-- Observable effects of the plugin.js dispatcher. -/
inductive Eff where
  | runCmd (args : List String)
  | writeFile (path : String) (content : String)
  | toast (msg : String)
  | stateUpdate (stateId : String) (value : String)
  | scheduleUpdate (ms : Nat)
deriving DecidableEq

/-- The model-map literal from the plugin.js constructor. -/
def modelMap : List (String × String) :=
  [("openclaw_switch_model_deepseek", "openrouter/deepseek/deepseek-v3.2"),
   ("openclaw_switch_model_ollama", "ollama/llama3.2:3b"),
   ("openclaw_switch_model_claude", "openrouter/anthropic/claude-3.5-sonnet"),
   ("openclaw_switch_model_gpt4o", "openrouter/openai/gpt-4o"),
   ("openclaw_switch_model_gemini", "openrouter/google/gemini-2.5-flash-lite")]

/-- Mutable instance fields of the plugin.js object. -/
structure State where
  openclawPath : String
  workspaceDir : String
  running : Bool
  modelMap : List (String × String)
deriving DecidableEq

/-- Field values set by the plugin.js constructor. -/
def initState : State :=
  { openclawPath := "/usr/local/bin/openclaw"
    workspaceDir := "/home/dontcallmejames/.openclaw/workspace"
    running := true
    modelMap := modelMap }

/-- plugin.js `handleAction`. `r` is the resolved result of the one
command the taken branch awaits; `w` is the outcome of the heartbeat
file write (caught in the branch's try block). -/
def handleAction (s : State) (actionId : String) (r : CmdResult)
    (w : Except String Unit) : List Eff :=
  let mv := (jsLookup s.modelMap actionId).getD ""
  (if mv ≠ "" then
    [Eff.runCmd ["message", "webchat", "/model " ++ mv],
     Eff.toast (if r.code = 0 then "Switching to " ++ mv
       else "Switch failed: " ++ r.stderr.take 50)]
  else if actionId = "openclaw_reset_gateway" then
    [Eff.runCmd ["gateway", "restart"],
     Eff.toast (if r.code = 0 then "Gateway restart initiated"
       else "Restart failed: " ++ r.stderr.take 50)]
  else if actionId = "openclaw_trigger_heartbeat" then
    [Eff.writeFile (s.workspaceDir ++ "/HEARTBEAT.md") "# Manual heartbeat\n",
     Eff.toast (match w with
       | Except.ok _ => "Heartbeat triggered"
       | Except.error e => "Heartbeat failed: " ++ e.take 50)]
  else if actionId = "openclaw_kill_subagents" then
    [Eff.runCmd ["subagents", "kill", "all"],
     Eff.toast (if r.code = 0 then "Sub‑agents terminated"
       else "Kill failed: " ++ r.stderr.take 50)]
  else if actionId = "openclaw_toggle_thinking" then
    [Eff.runCmd ["message", "webchat", "/reasoning"],
     Eff.toast (if r.code = 0 then "Thinking mode toggled"
       else "Toggle failed: " ++ r.stderr.take 50)]
  else []) ++ [Eff.scheduleUpdate 1000]

/-- The settings branch of the plugin.js message handler:
`settings.openclaw_path || previous` and
`settings.openclaw_workspace || previous`. -/
def applySettings (s : State) (vals : List (String × String)) : State :=
  let p := (jsLookup vals "openclaw_path").getD ""
  let w := (jsLookup vals "openclaw_workspace").getD ""
  { s with
    openclawPath := if p = "" then s.openclawPath else p
    workspaceDir := if w = "" then s.workspaceDir else w }

/-- Inbound control-channel messages as the plugin.js handler branches on
them; `badFrame` stands for a frame whose JSON parse failed. -/
inductive TpMsg where
  | action (actionId : String)
  | settings (vals : Option (List (String × String)))
  | closePlugin
  | badFrame

/-- State transition of the plugin.js message handler; a parse failure is
logged and the frame discarded. -/
def applyTpMsg (s : State) : TpMsg → State
  | TpMsg.action _ => s
  | TpMsg.settings vals => applySettings s (vals.getD [])
  | TpMsg.closePlugin => { s with running := false }
  | TpMsg.badFrame => s

end LocalPlugin

namespace HttpPlugin

/-- The value of `msg.values` as parseSettings sees it: absent/null, an
array of objects, or one flat object. -/
inductive SettingsValues where
  | nil
  | arr (items : List (List (String × String)))
  | obj (o : List (String × String))

/-- Function `parseSettings` from the HTTP document of plugin-remote.js: null
becomes an empty object, an array is folded with `Object.assign` into a
fresh object, a flat object is returned as is. -/
def parseSettings : SettingsValues → List (String × String)
  | SettingsValues.nil => []
  | SettingsValues.arr items => items.foldl objAssign []
  | SettingsValues.obj o => o

/-- The model-map literal from the HTTP document's constructor. -/
def modelMap : List (String × String) :=
  [("openclaw_switch_model_deepseek", "openrouter/deepseek/deepseek-v3.2"),
   ("openclaw_switch_model_ollama", "ollama/llama3.2:3b"),
   ("openclaw_switch_model_claude", "anthropic/claude-sonnet-4-6"),
   ("openclaw_switch_model_gpt4o", "openrouter/openai/gpt-4o"),
   ("openclaw_switch_model_gemini", "openrouter/google/gemini-2.5-flash-lite")]

/-- Mutable instance fields of the HTTP variant's plugin object. -/
structure State where
  gatewayUrl : String
  authToken : String
  running : Bool
  modelMap : List (String × String)
deriving DecidableEq

/-- Field values set by the HTTP document's constructor. -/
def initState : State :=
  { gatewayUrl := "http://192.168.1.191:18789"
    authToken := "5ded5065b332507fde2eef8ffd4ba0453bf1fc230c124dfe"
    running := true
    modelMap := modelMap }

/-- The value `invokeTool` resolves with as far as handleAction consumes
it: the HTTP status code and the response body. -/
structure InvokeRes where
  status : Nat
  body : String
deriving DecidableEq

/-- Observable effects of the HTTP variant's dispatcher; `invoke` records
an outbound POST to /tools/invoke and whether its promise is awaited. -/
inductive Eff where
  | invoke (tool : String) (args : List (String × String)) (awaited : Bool)
  | toast (msg : String)
  | stateUpdate (stateId : String) (value : String)
  | scheduleStatus (ms : Nat)
deriving DecidableEq

/-- The exec command interpolated for a model switch. -/
def modelSwitchCmd (model : String) : String :=
  "openclaw message webchat \x27/model " ++ model ++ "\x27"

/-- The exec command of the heartbeat branch. -/
def heartbeatCmd : String :=
  "echo \"# Manual heartbeat\" > /home/dontcallmejames/.openclaw/workspace/HEARTBEAT.md"

/-- The try block of the HTTP `handleAction`: the effects performed and,
when an awaited invoke rejects, the error escaping to the catch. `r` is
the settled outcome of the one invoke the taken branch awaits. -/
def tryDispatch (s : State) (actionId : String) (r : Except String InvokeRes) :
    List Eff × Option String :=
  let mv := (jsLookup s.modelMap actionId).getD ""
  if mv ≠ "" then
    match r with
    | Except.error e => ([Eff.invoke "exec" [("command", modelSwitchCmd mv)] true], some e)
    | Except.ok res =>
      (Eff.invoke "exec" [("command", modelSwitchCmd mv)] true ::
        (if res.status = 200 then
          [Eff.toast ("Switching to " ++ mv), Eff.stateUpdate "openclaw_current_model" mv]
        else [Eff.toast ("Switch failed (" ++ toString res.status ++ ")")]), none)
  else if actionId = "openclaw_reset_gateway" then
    ([Eff.invoke "exec" [("command", "openclaw gateway restart")] false,
      Eff.toast "Gateway restart initiated",
      Eff.stateUpdate "openclaw_agent_status" "restarting"], none)
  else if actionId = "openclaw_trigger_heartbeat" then
    match r with
    | Except.error e => ([Eff.invoke "exec" [("command", heartbeatCmd)] true], some e)
    | Except.ok res =>
      ([Eff.invoke "exec" [("command", heartbeatCmd)] true,
        Eff.toast (if res.status = 200 then "Heartbeat triggered"
          else "Heartbeat failed (" ++ toString res.status ++ ")")], none)
  else if actionId = "openclaw_kill_subagents" then
    match r with
    | Except.error e =>
      ([Eff.invoke "subagents" [("action", "kill"), ("target", "all")] true], some e)
    | Except.ok res =>
      ([Eff.invoke "subagents" [("action", "kill"), ("target", "all")] true,
        Eff.toast (if res.status = 200 then "Sub-agents terminated"
          else "Kill failed (" ++ toString res.status ++ ")")], none)
  else if actionId = "openclaw_toggle_thinking" then
    match r with
    | Except.error e =>
      ([Eff.invoke "exec" [("command", "openclaw message webchat \x27/reasoning\x27")] true],
        some e)
    | Except.ok res =>
      ([Eff.invoke "exec" [("command", "openclaw message webchat \x27/reasoning\x27")] true,
        Eff.toast (if res.status = 200 then "Thinking mode toggled"
          else "Toggle failed (" ++ toString res.status ++ ")")], none)
  else ([], none)

/-- Function `handleAction` of the HTTP variant: the try block, the catch toast
that truncates the message to 50 characters, then the unconditional
post-action status refresh after 2000 ms. -/
def handleAction (s : State) (actionId : String) (r : Except String InvokeRes) : List Eff :=
  let d := tryDispatch s actionId r
  (d.1 ++ (match d.2 with
    | some e => [Eff.toast ("Error: " ++ e.take 50)]
    | none => [])) ++ [Eff.scheduleStatus 2000]

/-- Models the first replace on the supplied gateway URL, a regex match
anchored at the end: drop one trailing "/ws". -/
def stripWsSuffix (u : String) : String :=
  if strEndsWith u "/ws" then strDropRight u 3 else u

/-- Models the second replace on the supplied gateway URL: drop one
trailing "/". -/
def stripTrailingSlash (u : String) : String :=
  if strEndsWith u "/" then strDropRight u 1 else u

/-- The settings branch of the HTTP variant's data handler: a truthy
`gateway_url` is stored with one trailing "/ws" then one trailing "/"
removed; a truthy `auth_token` whose trim is truthy is stored trimmed,
otherwise the token keeps its previous value. -/
def applySettings (s : State) (vals : List (String × String)) : State :=
  let s1 :=
    match jsLookup vals "gateway_url" with
    | some u =>
      if u = "" then s
      else { s with gatewayUrl := stripTrailingSlash (stripWsSuffix u) }
    | none => s
  match jsLookup vals "auth_token" with
  | some t =>
    if t = "" then s1
    else if jsTrim t = "" then s1
    else { s1 with authToken := jsTrim t }
  | none => s1

/-- Inbound control-channel messages as the HTTP data handler branches on
them; `badFrame` stands for a line whose JSON parse failed. -/
inductive TpMsg where
  | action (actionId : String)
  | settings (vals : SettingsValues)
  | closePlugin
  | badFrame

/-- State transition of the HTTP variant's message handler. -/
def applyTpMsg (s : State) : TpMsg → State
  | TpMsg.action _ => s
  | TpMsg.settings vals => applySettings s (parseSettings vals)
  | TpMsg.closePlugin => { s with running := false }
  | TpMsg.badFrame => s

/-- The timeout configured by `req.setTimeout` inside invokeTool. -/
def invokeTimeoutMs : Nat := 10000

/-- Request-level lifecycle state observed by the invokeTool promise:
whether the underlying request/socket was destroyed and how the promise
settled (`none` while pending; `Except.error` is a rejection). -/
structure ReqState where
  destroyed : Bool
  settled : Option (Except String InvokeRes)

/-- The timeout callback of invokeTool: `req.destroy()` then
`reject(new Error("Timeout"))` — a promise already settled stays as it
was, a pending one rejects. -/
def onInvokeTimeout (s : ReqState) : ReqState :=
  { destroyed := true
    settled := some (s.settled.getD (Except.error "Timeout")) }

/-- The response body as invokeTool resolves it. -/
inductive InvokeBody (α : Type) where
  | json (j : α)
  | text (raw : String)
deriving DecidableEq

/-- The end-of-response handler of invokeTool: try `JSON.parse(data)` and
resolve the parsed value, on parse failure resolve the raw text. `parse`
abstracts `JSON.parse`, returning `none` exactly when it throws. -/
def onResponseEnd {α : Type} (parse : String → Option α) (statusCode : Nat)
    (data : String) : Except String (Nat × InvokeBody α) :=
  match parse data with
  | some p => Except.ok (statusCode, InvokeBody.json p)
  | none => Except.ok (statusCode, InvokeBody.text data)

/-- Models `buf.split` at newlines followed by `lines.pop()`: the complete lines and the
trailing remainder that stays in the buffer. -/
def lineSplit : List Char → List (List Char) × List Char
  | [] => ([], [])
  | c :: cs =>
    let r := lineSplit cs
    if c = '\n' then ([] :: r.1, r.2)
    else
      match r with
      | (l :: ls, rest) => ((c :: l) :: ls, rest)
      | ([], rest) => ([], c :: rest)

/-- One firing of the TCP data handler: append the chunk to the buffer,
split on newlines, keep the incomplete last line buffered. -/
def onData (buf chunk : List Char) : List (List Char) × List Char :=
  lineSplit (buf ++ chunk)

/-- The data handler folded over a whole chunk sequence: all complete
lines produced, and the final buffer contents. -/
def processChunks (buf : List Char) : List (List Char) → List (List Char) × List Char
  | [] => ([], buf)
  | c :: cs =>
    let step := onData buf c
    let rest := processChunks step.2 cs
    (step.1 ++ rest.1, rest.2)

/-- Models `line.trim()` on the character list of one line. -/
def trimLine (l : List Char) : List Char :=
  ((l.dropWhile jsSpace).reverse.dropWhile jsSpace).reverse

/-- The messages the handler dispatches from a run of complete lines:
blank lines are skipped (`if (!trimmed) continue`), each remaining line
goes through the JSON parse and type dispatch `f`; a parse failure
(`f = none`) is logged and discarded. -/
def dispatchedLines {α : Type} (f : List Char → Option α)
    (lines : List (List Char)) : List α :=
  lines.filterMap (fun l => let t := trimLine l; if t = [] then none else f t)

/-- All messages dispatched while consuming a chunk sequence from an
empty buffer. -/
def dispatchedMsgs {α : Type} (f : List Char → Option α)
    (chunks : List (List Char)) : List α :=
  dispatchedLines f (processChunks [] chunks).1

/-- The buffer contents left after consuming a chunk sequence. -/
def finalBuf (chunks : List (List Char)) : List Char :=
  (processChunks [] chunks).2

end HttpPlugin

namespace WsPlugin

/-- WebSocket readyState values as the ws library exposes them. -/
inductive ReadyState where
  | connecting
  | opened
  | closing
  | closed
deriving DecidableEq

/-- The model-map literal from the WebSocket document's constructor. -/
def modelMap : List (String × String) :=
  [("openclaw_switch_model_deepseek", "openrouter/deepseek/deepseek-v3.2"),
   ("openclaw_switch_model_ollama", "ollama/llama3.2:3b"),
   ("openclaw_switch_model_claude", "openrouter/anthropic/claude-3.5-sonnet"),
   ("openclaw_switch_model_gpt4o", "openrouter/openai/gpt-4o"),
   ("openclaw_switch_model_gemini", "openrouter/google/gemini-2.5-flash-lite")]

/-- Mutable instance fields of the WebSocket variant's plugin object;
`ocWs = none` models `this.ocWs === null`. -/
structure State where
  gatewayUrl : String
  authToken : String
  running : Bool
  reqId : Nat
  ocWs : Option ReadyState
  modelMap : List (String × String)
deriving DecidableEq

/-- Field values set by the WebSocket document's constructor. -/
def initState : State :=
  { gatewayUrl := "ws://192.168.1.191:18789/ws"
    authToken := "5ded5065b332507fde2eef8ffd4ba0453bf1fc230c124dfe"
    running := true
    reqId := 1
    ocWs := none
    modelMap := modelMap }

/-- One JSON-RPC 2.0 envelope as sendGatewayRpc builds it. -/
structure RpcMsg where
  jsonrpc : String
  id : Nat
  method : String
  params : List (String × String)
deriving DecidableEq

/-- Function `sendGatewayRpc(method, params)`: when the gateway socket is
absent or not OPEN, log and return null sending nothing; otherwise take a
fresh id, send one envelope whose params are the supplied params spread
into a new object with the current token written under "token", and
return the id. Result: (returned id, new state, messages sent). -/
def sendGatewayRpc (s : State) (method : String) (params : List (String × String)) :
    Option Nat × State × List RpcMsg :=
  match s.ocWs with
  | some ReadyState.opened =>
    (some s.reqId, { s with reqId := s.reqId + 1 },
      [{ jsonrpc := "2.0", id := s.reqId, method := method
         params := objSet params "token" s.authToken }])
  | _ => (none, s, [])

/-- Tasks the WebSocket variant hands to setTimeout. -/
inductive TimerTask where
  | connectToGateway
  | fetchStatus
deriving DecidableEq

/-- Observable effects of the WebSocket variant. -/
inductive Eff where
  | rpc (msg : RpcMsg)
  | toast (msg : String)
  | stateUpdate (stateId : String) (value : String)
  | schedule (ms : Nat) (task : TimerTask)
deriving DecidableEq

/-- Function `handleAction` of the WebSocket variant: branch on the action
id, fire the matching RPC (a no-op when the socket is not open), toast,
and unconditionally schedule fetchStatus after 1000 ms. Returns the new
state (the RPC counter may advance) and the effects in order. -/
def handleAction (s : State) (actionId : String) : State × List Eff :=
  let mv := (jsLookup s.modelMap actionId).getD ""
  let main : State × List Eff :=
    if mv ≠ "" then
      let r := sendGatewayRpc s "message.send"
        [("channel", "webchat"), ("message", "/model " ++ mv)]
      (r.2.1, r.2.2.map Eff.rpc ++ [Eff.toast ("Switching to " ++ mv)])
    else if actionId = "openclaw_reset_gateway" then
      let r := sendGatewayRpc s "gateway.restart" []
      (r.2.1, r.2.2.map Eff.rpc ++ [Eff.toast "Gateway restart initiated"])
    else if actionId = "openclaw_trigger_heartbeat" then
      let r := sendGatewayRpc s "file.write"
        [("path", "/home/dontcallmejames/.openclaw/workspace/HEARTBEAT.md"),
         ("content", "# Manual heartbeat\n")]
      (r.2.1, r.2.2.map Eff.rpc ++ [Eff.toast "Heartbeat triggered"])
    else if actionId = "openclaw_kill_subagents" then
      let r := sendGatewayRpc s "subagents.kill" [("target", "all")]
      (r.2.1, r.2.2.map Eff.rpc ++ [Eff.toast "Sub‑agents terminated"])
    else if actionId = "openclaw_toggle_thinking" then
      let r := sendGatewayRpc s "message.send"
        [("channel", "webchat"), ("message", "/reasoning")]
      (r.2.1, r.2.2.map Eff.rpc ++ [Eff.toast "Thinking mode toggled"])
    else (s, [])
  (main.1, main.2 ++ [Eff.schedule 1000 TimerTask.fetchStatus])

/-- State effect of calling connectToGateway: a new gateway socket object
is created in the CONNECTING state. -/
def connectToGatewayState (s : State) : State :=
  { s with ocWs := some ReadyState.connecting }

/-- The close handler installed on the gateway socket: publish the
offline state, then, only while the running flag holds, schedule one
reconnect attempt after the fixed 5000 ms delay. -/
def onGatewayClose (s : State) : List Eff :=
  Eff.stateUpdate "openclaw_agent_status" "offline" ::
    (if s.running then [Eff.schedule 5000 TimerTask.connectToGateway] else [])

/-- The timers the close handler installs. -/
def reconnectTimers (s : State) : List (Nat × TimerTask) :=
  (onGatewayClose s).filterMap (fun e =>
    match e with
    | Eff.schedule ms t => some (ms, t)
    | _ => none)

/-- The settings branch of the WebSocket variant's message handler: a
truthy `gateway_url` is stored verbatim and the gateway socket is closed
and re-created; a truthy `auth_token` is stored verbatim. -/
def applySettings (s : State) (vals : List (String × String)) : State :=
  let s1 :=
    match jsLookup vals "gateway_url" with
    | some u =>
      if u = "" then s
      else connectToGatewayState { s with gatewayUrl := u }
    | none => s
  match jsLookup vals "auth_token" with
  | some t => if t = "" then s1 else { s1 with authToken := t }
  | none => s1

/-- Inbound control-channel messages of the WebSocket variant. -/
inductive TpMsg where
  | action (actionId : String)
  | settings (vals : Option (List (String × String)))
  | closePlugin
  | badFrame

/-- State transition of the WebSocket variant's message handler. -/
def applyTpMsg (s : State) : TpMsg → State
  | TpMsg.action aid => (handleAction s aid).1
  | TpMsg.settings vals => applySettings s (vals.getD [])
  | TpMsg.closePlugin => { s with running := false }
  | TpMsg.badFrame => s

end WsPlugin

/-- The action identifiers every dispatcher knows: the five model-switch
identifiers and the four fixed command identifiers. -/
def knownActionIds : List String :=
  ["openclaw_switch_model_deepseek", "openclaw_switch_model_ollama",
   "openclaw_switch_model_claude", "openclaw_switch_model_gpt4o",
   "openclaw_switch_model_gemini", "openclaw_reset_gateway",
   "openclaw_trigger_heartbeat", "openclaw_kill_subagents",
   "openclaw_toggle_thinking"]

theorem http_applySettings_modelMap (s : HttpPlugin.State)
    (vals : List (String × String)) :
    (HttpPlugin.applySettings s vals).modelMap = s.modelMap := by
  unfold HttpPlugin.applySettings
  repeat' split
  all_goals rfl

theorem ws_sendGatewayRpc_modelMap (s : WsPlugin.State) (m : String)
    (p : List (String × String)) :
    ((WsPlugin.sendGatewayRpc s m p).2.1).modelMap = s.modelMap := by
  unfold WsPlugin.sendGatewayRpc
  cases h : s.ocWs with
  | none => rfl
  | some rs => cases rs <;> rfl

theorem ws_handleAction_modelMap (s : WsPlugin.State) (aid : String) :
    ((WsPlugin.handleAction s aid).1).modelMap = s.modelMap := by
  unfold WsPlugin.handleAction
  dsimp only
  by_cases hmv : (jsLookup s.modelMap aid).getD "" = ""
  · simp only [ne_eq, hmv, not_true_eq_false, if_false]
    repeat' split
    all_goals simp [ws_sendGatewayRpc_modelMap]
  · simp only [ne_eq, hmv, not_false_eq_true, if_true]
    simp [ws_sendGatewayRpc_modelMap]

theorem ws_applySettings_modelMap (s : WsPlugin.State)
    (vals : List (String × String)) :
    (WsPlugin.applySettings s vals).modelMap = s.modelMap := by
  unfold WsPlugin.applySettings WsPlugin.connectToGatewayState
  repeat' split
  all_goals rfl

/-- C2 counterexample: the claim says the ModelMap holds exactly seven
entries in every variant, but each variant's map literal holds five. -/
theorem modelMap_entries_not_seven :
    LocalPlugin.initState.modelMap.length ≠ 7 ∧
    HttpPlugin.initState.modelMap.length ≠ 7 ∧
    WsPlugin.initState.modelMap.length ≠ 7 := by
  decide

/-- C2 (amended): in every variant the ModelMap is a fixed mapping from
action identifier to model name with exactly five entries, and no inbound
control-channel message transition ever changes it. -/
theorem modelMap_five_entries_immutable :
    LocalPlugin.initState.modelMap.length = 5 ∧
    HttpPlugin.initState.modelMap.length = 5 ∧
    WsPlugin.initState.modelMap.length = 5 ∧
    (∀ (s : LocalPlugin.State) (m : LocalPlugin.TpMsg),
      (LocalPlugin.applyTpMsg s m).modelMap = s.modelMap) ∧
    (∀ (s : HttpPlugin.State) (m : HttpPlugin.TpMsg),
      (HttpPlugin.applyTpMsg s m).modelMap = s.modelMap) ∧
    (∀ (s : WsPlugin.State) (m : WsPlugin.TpMsg),
      (WsPlugin.applyTpMsg s m).modelMap = s.modelMap) := by
  refine ⟨rfl, rfl, rfl, ?_, ?_, ?_⟩
  · intro s m
    cases m <;> rfl
  · intro s m
    cases m <;> first | rfl | exact http_applySettings_modelMap s _
  · intro s m
    cases m <;>
      first
        | rfl
        | exact ws_handleAction_modelMap s _
        | exact ws_applySettings_modelMap s _

/-- C3: sendGatewayRpc returns null and sends nothing whenever the
gateway socket is absent or not open; otherwise it sends exactly one
JSON-RPC 2.0 envelope whose params are the supplied params extended with
the current credential under the key "token", and returns the fresh
request id (advancing the counter). -/
theorem sendGatewayRpc_contract (s : WsPlugin.State) (m : String)
    (p : List (String × String)) :
    ((s.ocWs = none ∨ ∃ rs, s.ocWs = some rs ∧ rs ≠ WsPlugin.ReadyState.opened) →
      WsPlugin.sendGatewayRpc s m p = (none, s, [])) ∧
    (s.ocWs = some WsPlugin.ReadyState.opened →
      WsPlugin.sendGatewayRpc s m p =
        (some s.reqId, { s with reqId := s.reqId + 1 },
          [{ jsonrpc := "2.0", id := s.reqId, method := m,
             params := objSet p "token" s.authToken }])) := by
  constructor
  · intro h
    unfold WsPlugin.sendGatewayRpc
    rcases h with h | ⟨rs, hrs, hne⟩
    · rw [h]
    · rw [hrs]; cases rs <;> first | rfl | exact absurd rfl hne
  · intro h
    unfold WsPlugin.sendGatewayRpc
    rw [h]

/-- C3 witness: the contract evaluated at the initial state (no socket)
and at an open-socket state. -/
theorem sendGatewayRpc_contract_witness :
    WsPlugin.sendGatewayRpc WsPlugin.initState "status.get" [] =
      (none, WsPlugin.initState, []) ∧
    WsPlugin.sendGatewayRpc
        { WsPlugin.initState with ocWs := some WsPlugin.ReadyState.opened }
        "status.get" [] =
      (some 1,
       { WsPlugin.initState with ocWs := some WsPlugin.ReadyState.opened, reqId := 2 },
       [{ jsonrpc := "2.0", id := 1, method := "status.get",
          params := [("token", "5ded5065b332507fde2eef8ffd4ba0453bf1fc230c124dfe")] }]) :=
  ⟨(sendGatewayRpc_contract WsPlugin.initState "status.get" []).1 (Or.inl rfl),
   ((sendGatewayRpc_contract
      { WsPlugin.initState with ocWs := some WsPlugin.ReadyState.opened }
      "status.get" []).2 rfl).trans (by decide)⟩

theorem ws_iterate_connect_running (s : WsPlugin.State) (n : Nat) :
    (WsPlugin.connectToGatewayState^[n] s).running = s.running := by
  induction n with
  | zero => rfl
  | succ n ih =>
    rw [Function.iterate_succ_apply']
    simpa [WsPlugin.connectToGatewayState] using ih

/-- C5: whenever the gateway socket closes while the running flag is
true, the close handler schedules exactly one reconnect attempt with the
fixed 5000 ms delay, no matter how many reconnects have already happened
(no backoff growth, no retry limit); with running false it schedules
none. -/
theorem gateway_reconnect_fixed_delay (s : WsPlugin.State) (n : Nat) :
    (s.running = true →
      WsPlugin.reconnectTimers (WsPlugin.connectToGatewayState^[n] s) =
        [(5000, WsPlugin.TimerTask.connectToGateway)]) ∧
    (s.running = false →
      WsPlugin.reconnectTimers (WsPlugin.connectToGatewayState^[n] s) = []) := by
  constructor <;> intro h <;>
    simp [WsPlugin.reconnectTimers, WsPlugin.onGatewayClose,
      ws_iterate_connect_running, h]

/-- C5 witness: after three reconnect cycles a close still schedules one
5000 ms reconnect; with running false a close schedules none. -/
theorem gateway_reconnect_fixed_delay_witness :
    WsPlugin.reconnectTimers
        (WsPlugin.connectToGatewayState^[3] WsPlugin.initState) =
      [(5000, WsPlugin.TimerTask.connectToGateway)] ∧
    WsPlugin.reconnectTimers
        (WsPlugin.connectToGatewayState^[0]
          { WsPlugin.initState with running := false }) = [] :=
  ⟨(gateway_reconnect_fixed_delay WsPlugin.initState 3).1 rfl,
   (gateway_reconnect_fixed_delay
      { WsPlugin.initState with running := false } 0).2 rfl⟩

/-- C6: the invokeTool timeout is 10 seconds, and its firing destroys the
underlying request socket and rejects a still-pending promise with the
timeout error. -/
theorem invokeTool_timeout_destroys_and_rejects :
    HttpPlugin.invokeTimeoutMs = 10000 ∧
    ∀ s : HttpPlugin.ReqState,
      (HttpPlugin.onInvokeTimeout s).destroyed = true ∧
      (s.settled = none →
        (HttpPlugin.onInvokeTimeout s).settled =
          some (Except.error "Timeout")) := by
  refine ⟨rfl, fun s => ⟨rfl, fun h => ?_⟩⟩
  simp [HttpPlugin.onInvokeTimeout, h]

/-- C6 witness: the timeout handler evaluated on a pending, undestroyed
request. -/
theorem invokeTool_timeout_destroys_and_rejects_witness :
    (HttpPlugin.onInvokeTimeout { destroyed := false, settled := none }).destroyed = true ∧
    (HttpPlugin.onInvokeTimeout { destroyed := false, settled := none }).settled =
      some (Except.error "Timeout") :=
  ⟨(invokeTool_timeout_destroys_and_rejects.2
      { destroyed := false, settled := none }).1,
   (invokeTool_timeout_destroys_and_rejects.2
      { destroyed := false, settled := none }).2 rfl⟩

/-- C7: for every completed response, invokeTool resolves with the status
code and a body that is the parsed JSON value when the body parses, and
the raw response text when it does not; the promise never rejects on a
completed response. -/
theorem invokeTool_resolves_completed_responses {α : Type}
    (parse : String → Option α) (st : Nat) (data : String) :
    (∀ j, parse data = some j →
      HttpPlugin.onResponseEnd parse st data =
        Except.ok (st, HttpPlugin.InvokeBody.json j)) ∧
    (parse data = none →
      HttpPlugin.onResponseEnd parse st data =
        Except.ok (st, HttpPlugin.InvokeBody.text data)) ∧
    ∃ r, HttpPlugin.onResponseEnd parse st data = Except.ok r := by
  refine ⟨fun j hj => ?_, fun hn => ?_, ?_⟩
  · simp [HttpPlugin.onResponseEnd, hj]
  · simp [HttpPlugin.onResponseEnd, hn]
  · cases h : parse data <;> simp [HttpPlugin.onResponseEnd, h]

/-- C7 witness: a parsing body resolves with the parsed value, a
non-parsing body resolves with the raw text. -/
theorem invokeTool_resolves_completed_responses_witness :
    HttpPlugin.onResponseEnd
        (fun s => if s = "42" then some 42 else none) 200 "42" =
      Except.ok (200, HttpPlugin.InvokeBody.json 42) ∧
    HttpPlugin.onResponseEnd
        (fun s => if s = "42" then some 42 else none) 502 "Bad Gateway" =
      Except.ok (502, HttpPlugin.InvokeBody.text "Bad Gateway") :=
  ⟨(invokeTool_resolves_completed_responses
      (fun s => if s = "42" then some 42 else none) 200 "42").1 42 (by decide),
   (invokeTool_resolves_completed_responses
      (fun s => if s = "42" then some 42 else none) 502 "Bad Gateway").2.1 (by decide)⟩




theorem http_lookup_reset :
    jsLookup HttpPlugin.modelMap "openclaw_reset_gateway" = none := by decide

theorem ws_lookup_reset :
    jsLookup WsPlugin.modelMap "openclaw_reset_gateway" = none := by decide

theorem local_lookup_reset :
    jsLookup LocalPlugin.modelMap "openclaw_reset_gateway" = none := by decide

/-- C8 counterexample: in the local (plugin.js) variant, dispatching
reset_gateway with a failing command result surfaces the failure in a
toast and never publishes the agent status "restarting" — so the claim
does not hold in every variant. -/
theorem reset_gateway_not_uniform :
    LocalPlugin.Eff.toast "Restart failed: boom" ∈
      LocalPlugin.handleAction LocalPlugin.initState "openclaw_reset_gateway"
        { code := 1, stdout := "", stderr := "boom" } (Except.ok ()) ∧
    LocalPlugin.Eff.stateUpdate "openclaw_agent_status" "restarting" ∉
      LocalPlugin.handleAction LocalPlugin.initState "openclaw_reset_gateway"
        { code := 1, stdout := "", stderr := "boom" } (Except.ok ()) := by
  set_option maxRecDepth 4000 in decide

/-- C8 (amended): only the HTTP variant dispatches reset_gateway
fire-and-forget with errors swallowed (the effects do not depend on the
restart outcome, the invoke is not awaited) while toasting and marking
the agent status "restarting"; the WebSocket variant sends the restart
RPC and toasts without publishing any status; the local variant awaits
the restart and reports success or the truncated failure in the toast,
without publishing a status. -/
theorem reset_gateway_dispatch :
    (∀ (s : HttpPlugin.State) (r : Except String HttpPlugin.InvokeRes),
      s.modelMap = HttpPlugin.modelMap →
      HttpPlugin.handleAction s "openclaw_reset_gateway" r =
        [HttpPlugin.Eff.invoke "exec" [("command", "openclaw gateway restart")] false,
         HttpPlugin.Eff.toast "Gateway restart initiated",
         HttpPlugin.Eff.stateUpdate "openclaw_agent_status" "restarting",
         HttpPlugin.Eff.scheduleStatus 2000]) ∧
    (∀ s : WsPlugin.State,
      s.modelMap = WsPlugin.modelMap →
      WsPlugin.handleAction s "openclaw_reset_gateway" =
        ((WsPlugin.sendGatewayRpc s "gateway.restart" []).2.1,
          (WsPlugin.sendGatewayRpc s "gateway.restart" []).2.2.map WsPlugin.Eff.rpc ++
            [WsPlugin.Eff.toast "Gateway restart initiated",
             WsPlugin.Eff.schedule 1000 WsPlugin.TimerTask.fetchStatus]) ∧
        ∀ v, WsPlugin.Eff.stateUpdate "openclaw_agent_status" v ∉
          (WsPlugin.handleAction s "openclaw_reset_gateway").2) ∧
    (∀ (s : LocalPlugin.State) (r : LocalPlugin.CmdResult) (w : Except String Unit),
      s.modelMap = LocalPlugin.modelMap →
      LocalPlugin.handleAction s "openclaw_reset_gateway" r w =
        [LocalPlugin.Eff.runCmd ["gateway", "restart"],
         LocalPlugin.Eff.toast (if r.code = 0 then "Gateway restart initiated"
           else "Restart failed: " ++ r.stderr.take 50),
         LocalPlugin.Eff.scheduleUpdate 1000]) := by
  refine ⟨?_, ?_, ?_⟩
  · intro s r hm
    simp [HttpPlugin.handleAction, HttpPlugin.tryDispatch, hm, http_lookup_reset]
  · intro s hm
    have heq : WsPlugin.handleAction s "openclaw_reset_gateway" =
        ((WsPlugin.sendGatewayRpc s "gateway.restart" []).2.1,
          (WsPlugin.sendGatewayRpc s "gateway.restart" []).2.2.map WsPlugin.Eff.rpc ++
            [WsPlugin.Eff.toast "Gateway restart initiated",
             WsPlugin.Eff.schedule 1000 WsPlugin.TimerTask.fetchStatus]) := by
      simp [WsPlugin.handleAction, hm, ws_lookup_reset]
    refine ⟨heq, ?_⟩
    intro v
    rw [heq]
    unfold WsPlugin.sendGatewayRpc
    rcases s.ocWs with _ | rs
    · simp
    · cases rs <;> simp
  · intro s r w hm
    simp [LocalPlugin.handleAction, hm, local_lookup_reset]

/-- C9: applying a settings event in the HTTP variant stores a supplied
non-empty gateway_url with one trailing "/ws" and then one trailing "/"
removed, and leaves the stored credential unchanged when auth_token is
absent, empty, or whitespace-only, storing it trimmed otherwise. -/
theorem http_settings_url_token (s : HttpPlugin.State)
    (vals : List (String × String)) :
    (∀ u, jsLookup vals "gateway_url" = some u → u ≠ "" →
      (HttpPlugin.applySettings s vals).gatewayUrl =
        HttpPlugin.stripTrailingSlash (HttpPlugin.stripWsSuffix u)) ∧
    (jsLookup vals "auth_token" = none →
      (HttpPlugin.applySettings s vals).authToken = s.authToken) ∧
    (∀ t, jsLookup vals "auth_token" = some t → jsTrim t = "" →
      (HttpPlugin.applySettings s vals).authToken = s.authToken) ∧
    (∀ t, jsLookup vals "auth_token" = some t → jsTrim t ≠ "" →
      (HttpPlugin.applySettings s vals).authToken = jsTrim t) := by
  refine ⟨?_, ?_, ?_, ?_⟩
  · intro u hu hne
    unfold HttpPlugin.applySettings
    rw [hu]
    cases ht : jsLookup vals "auth_token" with
    | none => simp [hne]
    | some t =>
      by_cases h1 : t = "" <;> by_cases h2 : jsTrim t = "" <;> simp [hne, h1, h2]
  · intro ht
    unfold HttpPlugin.applySettings
    rw [ht]
    cases hu : jsLookup vals "gateway_url" with
    | none => rfl
    | some u => by_cases h1 : u = "" <;> simp [h1]
  · intro t ht htr
    unfold HttpPlugin.applySettings
    rw [ht]
    have h1 : t = "" ∨ t ≠ "" := em (t = "")
    cases hu : jsLookup vals "gateway_url" with
    | none => rcases h1 with h1 | h1 <;> simp [h1, htr]
    | some u =>
      by_cases h2 : u = "" <;> rcases h1 with h1 | h1 <;> simp [h1, h2, htr]
  · intro t ht htr
    have hne : t ≠ "" := by
      intro h
      apply htr
      rw [h]
      rfl
    unfold HttpPlugin.applySettings
    rw [ht]
    cases hu : jsLookup vals "gateway_url" with
    | none => simp [hne, htr]
    | some u => by_cases h2 : u = "" <;> simp [h2, hne, htr]

/-- C9 witness: a settings object with a decorated URL and a padded token
is stored stripped and trimmed; a whitespace-only token leaves the
default credential in place. -/
theorem http_settings_url_token_witness :
    (HttpPlugin.applySettings HttpPlugin.initState
        [("gateway_url", "http://192.168.1.191:18789/ws"),
         ("auth_token", "  tok  ")]).gatewayUrl = "http://192.168.1.191:18789" ∧
    (HttpPlugin.applySettings HttpPlugin.initState
        [("gateway_url", "http://192.168.1.191:18789/ws"),
         ("auth_token", "  tok  ")]).authToken = "tok" ∧
    (HttpPlugin.applySettings HttpPlugin.initState
        [("auth_token", "   ")]).authToken = HttpPlugin.initState.authToken :=
  ⟨((http_settings_url_token HttpPlugin.initState
      [("gateway_url", "http://192.168.1.191:18789/ws"),
       ("auth_token", "  tok  ")]).1
      "http://192.168.1.191:18789/ws" (by decide) (by decide)).trans (by decide),
   ((http_settings_url_token HttpPlugin.initState
      [("gateway_url", "http://192.168.1.191:18789/ws"),
       ("auth_token", "  tok  ")]).2.2.2
      "  tok  " (by decide) (by decide)).trans (by decide),
   (http_settings_url_token HttpPlugin.initState
      [("auth_token", "   ")]).2.2.1 "   " (by decide) (by decide)⟩

theorem jsLookup_modelMaps_none (aid : String)
    (h1 : aid ≠ "openclaw_switch_model_deepseek")
    (h2 : aid ≠ "openclaw_switch_model_ollama")
    (h3 : aid ≠ "openclaw_switch_model_claude")
    (h4 : aid ≠ "openclaw_switch_model_gpt4o")
    (h5 : aid ≠ "openclaw_switch_model_gemini") :
    jsLookup LocalPlugin.modelMap aid = none ∧
    jsLookup HttpPlugin.modelMap aid = none ∧
    jsLookup WsPlugin.modelMap aid = none := by
  refine ⟨?_, ?_, ?_⟩ <;>
    simp [LocalPlugin.modelMap, HttpPlugin.modelMap, WsPlugin.modelMap,
      jsLookup, h1, h2, h3, h4, h5]

/-- C1: for every action identifier outside the known set, handleAction
in each variant raises no error and emits no outbound agent request — no
command execution, no RPC send, no HTTP invoke — only the unconditional
post-action status-refresh timer. -/
theorem unknown_action_silent (aid : String) (h : aid ∉ knownActionIds) :
    (∀ r, HttpPlugin.tryDispatch HttpPlugin.initState aid r = ([], none)) ∧
    (∀ r, HttpPlugin.handleAction HttpPlugin.initState aid r =
      [HttpPlugin.Eff.scheduleStatus 2000]) ∧
    (∀ r w, LocalPlugin.handleAction LocalPlugin.initState aid r w =
      [LocalPlugin.Eff.scheduleUpdate 1000]) ∧
    WsPlugin.handleAction WsPlugin.initState aid =
      (WsPlugin.initState, [WsPlugin.Eff.schedule 1000 WsPlugin.TimerTask.fetchStatus]) := by
  simp only [knownActionIds, List.mem_cons, List.not_mem_nil, or_false] at h
  push_neg at h
  obtain ⟨h1, h2, h3, h4, h5, h6, h7, h8, h9⟩ := h
  obtain ⟨hl, hh, hw⟩ := jsLookup_modelMaps_none aid h1 h2 h3 h4 h5
  refine ⟨?_, ?_, ?_, ?_⟩
  · intro r
    simp [HttpPlugin.tryDispatch, HttpPlugin.initState, hh, h6, h7, h8, h9]
  · intro r
    simp [HttpPlugin.handleAction, HttpPlugin.tryDispatch, HttpPlugin.initState,
      hh, h6, h7, h8, h9]
  · intro r w
    simp [LocalPlugin.handleAction, LocalPlugin.initState, hl, h6, h7, h8, h9]
  · simp [WsPlugin.handleAction, WsPlugin.initState, hw, h6, h7, h8, h9]

/-- C1 witness: the dispatchers evaluated on a concrete unknown
identifier. -/
theorem unknown_action_silent_witness :
    HttpPlugin.handleAction HttpPlugin.initState "openclaw_mystery_button"
        (Except.ok { status := 200, body := "ok" }) =
      [HttpPlugin.Eff.scheduleStatus 2000] ∧
    LocalPlugin.handleAction LocalPlugin.initState "openclaw_mystery_button"
        { code := 0, stdout := "", stderr := "" } (Except.ok ()) =
      [LocalPlugin.Eff.scheduleUpdate 1000] ∧
    WsPlugin.handleAction WsPlugin.initState "openclaw_mystery_button" =
      (WsPlugin.initState, [WsPlugin.Eff.schedule 1000 WsPlugin.TimerTask.fetchStatus]) := by
  have H := unknown_action_silent "openclaw_mystery_button" (by decide)
  exact ⟨H.2.1 _, H.2.2.1 _ _, H.2.2.2⟩

theorem objSet_of_not_key (acc : List (String × String)) (k v : String)
    (h : k ∉ acc.map Prod.fst) : objSet acc k v = acc ++ [(k, v)] := by
  induction acc with
  | nil => rfl
  | cons p rest ih =>
    obtain ⟨k0, v0⟩ := p
    simp only [List.map_cons, List.mem_cons] at h
    push_neg at h
    rw [objSet, if_neg (fun e => h.1 e.symm), ih h.2]
    rfl

theorem foldl_objAssign_singletons (xs : List (String × String)) :
    ∀ acc : List (String × String),
      (xs.map Prod.fst).Nodup →
      (∀ a ∈ xs.map Prod.fst, a ∉ acc.map Prod.fst) →
      List.foldl objAssign acc (xs.map fun p => [p]) = acc ++ xs := by
  induction xs with
  | nil => intro acc _ _; simp
  | cons p rest ih =>
    intro acc hnd hdisj
    obtain ⟨k, v⟩ := p
    simp only [List.map_cons, List.nodup_cons] at hnd
    rw [List.map_cons, List.foldl_cons]
    have hstep : objAssign acc [(k, v)] = acc ++ [(k, v)] := by
      rw [objAssign, objAssign, objSet_of_not_key acc k v (hdisj k (by simp))]
    rw [hstep, ih (acc ++ [(k, v)]) hnd.2]
    · simp
    · intro a ha
      simp only [List.map_append, List.map_cons, List.map_nil, List.mem_append,
        List.mem_singleton]
      push_neg
      refine ⟨hdisj a (by simp [ha]), ?_⟩
      intro e
      subst e
      exact absurd ha hnd.1

theorem parseSettings_arr_singletons (xs : List (String × String))
    (h : (xs.map Prod.fst).Nodup) :
    HttpPlugin.parseSettings
      (HttpPlugin.SettingsValues.arr (xs.map fun p => [p])) = xs := by
  rw [HttpPlugin.parseSettings]
  simpa using foldl_objAssign_singletons xs [] h (by simp)

theorem jsLookup_eq_some_mem (xs : List (String × String)) (k v : String)
    (h : jsLookup xs k = some v) : (k, v) ∈ xs := by
  induction xs with
  | nil => simp [jsLookup] at h
  | cons p rest ih =>
    obtain ⟨k0, v0⟩ := p
    rw [jsLookup] at h
    by_cases he : k = k0
    · rw [if_pos he] at h
      simp only [Option.some.injEq] at h
      simp [he, h]
    · rw [if_neg he] at h
      exact List.mem_cons_of_mem _ (ih h)

theorem jsLookup_of_mem_nodup (xs : List (String × String)) (k v : String)
    (hnd : (xs.map Prod.fst).Nodup) (h : (k, v) ∈ xs) :
    jsLookup xs k = some v := by
  induction xs with
  | nil => simp at h
  | cons p rest ih =>
    obtain ⟨k0, v0⟩ := p
    simp only [List.map_cons, List.nodup_cons] at hnd
    rcases List.mem_cons.mp h with he | hm
    · rw [Prod.mk.injEq] at he
      rw [jsLookup, if_pos he.1, he.2]
    · have hk : k ∈ rest.map Prod.fst := List.mem_map.mpr ⟨(k, v), hm, rfl⟩
      have hne : k ≠ k0 := fun e => hnd.1 (e ▸ hk)
      rw [jsLookup, if_neg hne]
      exact ih hnd.2 hm

/-- C4: a list of single-key objects and a flat object carrying the same
key-value pairs normalize to identical flat mappings: parseSettings on
both yields the same value for every setting name. -/
theorem parseSettings_normalization (xs ys : List (String × String))
    (hx : (xs.map Prod.fst).Nodup) (hy : (ys.map Prod.fst).Nodup)
    (hxy : ∀ p ∈ xs, p ∈ ys) (hyx : ∀ p ∈ ys, p ∈ xs) (k : String) :
    jsLookup (HttpPlugin.parseSettings
        (HttpPlugin.SettingsValues.arr (xs.map fun p => [p]))) k =
      jsLookup (HttpPlugin.parseSettings (HttpPlugin.SettingsValues.obj ys)) k := by
  rw [parseSettings_arr_singletons xs hx, HttpPlugin.parseSettings]
  cases hx1 : jsLookup xs k with
  | some v =>
    exact (jsLookup_of_mem_nodup ys k v hy (hxy _ (jsLookup_eq_some_mem xs k v hx1))).symm
  | none =>
    cases hy1 : jsLookup ys k with
    | none => rfl
    | some v =>
      have : jsLookup xs k = some v :=
        jsLookup_of_mem_nodup xs k v hx (hyx _ (jsLookup_eq_some_mem ys k v hy1))
      rw [hx1] at this
      exact absurd this (by simp)

/-- C4 witness: the normalized mappings agree on a concrete
two-setting payload delivered both ways. -/
theorem parseSettings_normalization_witness :
    jsLookup (HttpPlugin.parseSettings (HttpPlugin.SettingsValues.arr
        [[("gateway_url", "http://pi:18789")], [("auth_token", "tok")]]))
      "gateway_url" =
    jsLookup (HttpPlugin.parseSettings (HttpPlugin.SettingsValues.obj
        [("auth_token", "tok"), ("gateway_url", "http://pi:18789")]))
      "gateway_url" := by
  have H := parseSettings_normalization
    [("gateway_url", "http://pi:18789"), ("auth_token", "tok")]
    [("auth_token", "tok"), ("gateway_url", "http://pi:18789")]
    (by decide) (by decide) (by decide) (by decide) "gateway_url"
  simpa using H

theorem lineSplit_append (x y : List Char) :
    HttpPlugin.lineSplit (x ++ y) =
      ((HttpPlugin.lineSplit x).1 ++
        (HttpPlugin.lineSplit ((HttpPlugin.lineSplit x).2 ++ y)).1,
       (HttpPlugin.lineSplit ((HttpPlugin.lineSplit x).2 ++ y)).2) := by
  induction x with
  | nil => simp [HttpPlugin.lineSplit]
  | cons c cs ih =>
    by_cases hc : c = '\n'
    · subst hc
      rw [List.cons_append, HttpPlugin.lineSplit, HttpPlugin.lineSplit]
      simp only [if_pos rfl]
      rw [ih]
      simp
    · rw [List.cons_append, HttpPlugin.lineSplit, HttpPlugin.lineSplit]
      simp only [if_neg hc]
      cases hr : HttpPlugin.lineSplit cs with
      | mk ls rest =>
        rw [hr] at ih
        cases ls with
        | cons l ls2 =>
          simp only []
          rw [ih]
          simp
        | nil =>
          simp only []
          rw [ih]
          simp only [List.nil_append]
          rw [List.cons_append, HttpPlugin.lineSplit]
          simp only [if_neg hc]

theorem lineSplit_rem_no_newline (s : List Char) :
    '\n' ∉ (HttpPlugin.lineSplit s).2 := by
  induction s with
  | nil => simp [HttpPlugin.lineSplit]
  | cons c cs ih =>
    by_cases hc : c = '\n'
    · subst hc
      rw [HttpPlugin.lineSplit]
      simpa using ih
    · rw [HttpPlugin.lineSplit]
      simp only [if_neg hc]
      rcases hr : HttpPlugin.lineSplit cs with ⟨L, R⟩
      rw [hr] at ih
      cases L with
      | cons l ls => simpa using ih
      | nil =>
        simp only [List.mem_cons]
        push_neg
        exact ⟨fun e => hc e.symm, ih⟩

theorem lineSplit_no_newline (s : List Char) (h : '\n' ∉ s) :
    HttpPlugin.lineSplit s = ([], s) := by
  induction s with
  | nil => rfl
  | cons c cs ih =>
    simp only [List.mem_cons] at h
    push_neg at h
    rw [HttpPlugin.lineSplit, if_neg (fun e => h.1 e.symm), ih h.2]

theorem processChunks_eq_lineSplit (cs : List (List Char)) :
    ∀ buf : List Char, '\n' ∉ buf →
      HttpPlugin.processChunks buf cs = HttpPlugin.lineSplit (buf ++ cs.flatten) := by
  induction cs with
  | nil =>
    intro buf h
    rw [HttpPlugin.processChunks, List.flatten_nil, List.append_nil,
      lineSplit_no_newline buf h]
  | cons c rest ih =>
    intro buf h
    rw [HttpPlugin.processChunks, HttpPlugin.onData]
    rw [ih (HttpPlugin.lineSplit (buf ++ c)).2 (lineSplit_rem_no_newline (buf ++ c)),
      List.flatten_cons, ← List.append_assoc, lineSplit_append (buf ++ c) rest.flatten]

/-- C10: the stream of messages the HTTP variant's TCP data handler
dispatches, and the buffered trailing remainder, are invariant under the
chunking of the inbound bytes: any two chunk sequences with the same
concatenation dispatch the same message sequence (blank lines skipped,
each non-blank complete line given to the parse-and-dispatch function)
and retain the same incomplete last line, namely those of the line split
of the whole stream. -/
theorem tp_data_chunk_invariance {α : Type} (f : List Char → Option α)
    (cs1 cs2 : List (List Char)) (h : cs1.flatten = cs2.flatten) :
    HttpPlugin.dispatchedMsgs f cs1 = HttpPlugin.dispatchedMsgs f cs2 ∧
    HttpPlugin.finalBuf cs1 = HttpPlugin.finalBuf cs2 ∧
    HttpPlugin.dispatchedMsgs f cs1 =
      HttpPlugin.dispatchedLines f (HttpPlugin.lineSplit cs1.flatten).1 ∧
    HttpPlugin.finalBuf cs1 = (HttpPlugin.lineSplit cs1.flatten).2 := by
  have e1 : HttpPlugin.processChunks [] cs1 = HttpPlugin.lineSplit cs1.flatten := by
    simpa using processChunks_eq_lineSplit cs1 [] (by simp)
  have e2 : HttpPlugin.processChunks [] cs2 = HttpPlugin.lineSplit cs2.flatten := by
    simpa using processChunks_eq_lineSplit cs2 [] (by simp)
  refine ⟨?_, ?_, ?_, ?_⟩
  · rw [HttpPlugin.dispatchedMsgs, HttpPlugin.dispatchedMsgs, e1, e2, h]
  · rw [HttpPlugin.finalBuf, HttpPlugin.finalBuf, e1, e2, h]
  · rw [HttpPlugin.dispatchedMsgs, e1]
  · rw [HttpPlugin.finalBuf, e1]

/-- C10 witness: two different chunkings of the same byte stream
dispatch the same lines and retain the same buffered remainder. -/
theorem tp_data_chunk_invariance_witness :
    HttpPlugin.dispatchedMsgs (fun l => some l)
        [['a', '\n', ' ', '\n', 'b', 'c'], ['\n', 'd']] =
      HttpPlugin.dispatchedMsgs (fun l => some l)
        [['a'], ['\n', ' ', '\n', 'b'], ['c', '\n', 'd']] ∧
    HttpPlugin.finalBuf [['a', '\n', ' ', '\n', 'b', 'c'], ['\n', 'd']] =
      HttpPlugin.finalBuf [['a'], ['\n', ' ', '\n', 'b'], ['c', '\n', 'd']] :=
  ⟨(tp_data_chunk_invariance (fun l => some l)
      [['a', '\n', ' ', '\n', 'b', 'c'], ['\n', 'd']]
      [['a'], ['\n', ' ', '\n', 'b'], ['c', '\n', 'd']] (by decide)).1,
   (tp_data_chunk_invariance (fun l => some l)
      [['a', '\n', ' ', '\n', 'b', 'c'], ['\n', 'd']]
      [['a'], ['\n', ' ', '\n', 'b'], ['c', '\n', 'd']] (by decide)).2.1⟩
